import Mathlib

/-!
# Query layer of the wasm module (`x/wasm/internal/keeper/querier.go`)

A shallow embedding of `NewQuerier` and of the six query handlers it routes
to, followed by the properties of the routing, of the execution-context
bookkeeping and of the fault boundary around contract queries.

Conventions of the embedding

* A Go `[]byte` is `ByteSlice = Option (List Nat)`; `none` is the `nil` slice.
* A Go `error` is `Option GoError`; `none` is the `nil` error.
* A Go call that may panic yields a `Go α`: it either returns or panics with
  the value handed to `panic`, which may be the nil value (`panic(nil)`).
* The meter of a context is shared and mutated in place; a collaborator whose
  work is charged to it yields, besides its results, what that meter has
  consumed when control comes back.
* The keeper, the codec, the constants of package `types` and the runtime
  (`debug.Stack`) are collaborators of the file; they are parameters. A call
  of a collaborator returns, except `keeper.queryToContract`, whose panics
  the file recovers from.
* The gas meter and the storage of the contracts, which the properties on gas
  exhaustion and on raw-store reads need, are modelled from the spec.
-/

set_option autoImplicit false

namespace Wasm

/-! ## Values, errors, panics -/

/-- Go `[]byte`; `none` is the nil slice. -/
abbrev ByteSlice := Option (List Nat)

/-- The type `sdk.AccAddress`, a byte string. -/
abbrev AccAddress := List Nat

/-- The registered errors of `sdkerrors` the file wraps. -/
inductive SdkError where
  | ErrJSONUnmarshal
  | ErrJSONMarshal
  | ErrUnknownRequest
  | ErrOutOfGas
  | ErrPanic
  deriving DecidableEq, Repr

/-- A non-nil Go `error` value: `sdkerrors.Wrap root description`, or an error
the file did not build itself (it comes back from the keeper). -/
inductive GoError where
  | wrapped (root : SdkError) (description : String)
  | foreign (text : String)
  deriving DecidableEq, Repr

/-- The call `sdkerrors.Wrap(root, description)`. -/
def Wrap (root : SdkError) (description : String) : GoError :=
  GoError.wrapped root description

/-- A non-nil value given to `panic`: the gas-exhaustion signal
`sdk.ErrorOutOfGas{Descriptor}`, or any other value, kept as its `%v` text. -/
inductive PanicValue where
  | ErrorOutOfGas (Descriptor : String)
  | other (shown : String)
  deriving DecidableEq, Repr

/-- The outcome of a Go call: a normal return, or a panic unwinding the stack
with the value handed to `panic`; `none` is the nil value of `panic(nil)`. -/
inductive Go (α : Type) where
  | ret (a : α)
  | panic (r : Option PanicValue)
  deriving DecidableEq, Repr

/-- The two results `([]byte, error)` of a querier or of a handler. -/
abbrev Result := ByteSlice × Option GoError

/-! ## The context -/

/-- Modelled from the spec: the gas meter `{limit, consumed}` of section 3,
built by `sdk.NewGasMeter` (the SDK's meter is not part of the sources). Nat
(`sdk.Gas`) is a non-negative integer. -/
structure GasMeter where
  limit : Nat
  consumed : Nat
  deriving DecidableEq, Repr

/-- Modelled from the spec: `sdk.NewGasMeter(limit)`, a meter with the given
limit that has consumed nothing. -/
def NewGasMeter (limit : Nat) : GasMeter :=
  { limit := limit, consumed := 0 }

/-- Modelled from the spec: the method `GasMeter.Limit()`, the limit the meter
was built with. -/
def GasMeter.Limit (m : GasMeter) : Nat := m.limit

/-- Modelled from the spec: the method `GasMeter.GasConsumed()`, the consumed
counter of the meter. -/
def GasMeter.GasConsumed (m : GasMeter) : Nat := m.consumed

/-- A context key: the two keys of package `types` the querier uses (they are
different keys), or any other key. -/
inductive CtxKey where
  | IsContractExecution
  | WasmerIdx
  | other (name : String)
  deriving DecidableEq, Repr

/-- A value stored in a context, with its dynamic type: a `bool`, an `int`, or
a value of some other type. -/
inductive CtxValue where
  | bool (b : Bool)
  | int (n : Int)
  | other (shown : String)
  deriving DecidableEq, Repr

/-- The part of `sdk.Context` the file reads and writes: the chain of values
(the most recent `WithValue` first) and the gas meter. -/
structure Context where
  values : List (CtxKey × CtxValue)
  gasMeter : GasMeter
  deriving DecidableEq, Repr

/-- The method `ctx.Value(key)`: the most recent value stored under `key`. -/
def Context.Value (ctx : Context) (key : CtxKey) : Option CtxValue :=
  (ctx.values.find? (fun kv => decide (kv.1 = key))).map Prod.snd

/-- The method `ctx.WithValue(key, value)`: a context with one more value. -/
def Context.WithValue (ctx : Context) (key : CtxKey) (value : CtxValue) : Context :=
  { ctx with values := (key, value) :: ctx.values }

/-- The method `ctx.WithGasMeter(meter)`: a context with the meter replaced. -/
def Context.WithGasMeter (ctx : Context) (meter : GasMeter) : Context :=
  { ctx with gasMeter := meter }

/-- The method `ctx.GasMeter()`. -/
def Context.GasMeter (ctx : Context) : GasMeter := ctx.gasMeter

/-- The comma-ok type assertion `_, ok := v.(bool)`: `ok` holds when a value is
there and its dynamic type is `bool`. -/
def assertBool : Option CtxValue → Bool
  | some (CtxValue.bool _) => true
  | _ => false

/-! ## Requests and collaborators -/

/-- The field of `abci.RequestQuery` the handlers read. -/
structure RequestQuery where
  Data : ByteSlice
  deriving DecidableEq, Repr

/-- The type `types.QueryCodeIDParams`. -/
structure QueryCodeIDParams where
  CodeID : Nat
  deriving DecidableEq, Repr

/-- The type `types.QueryContractAddressParams`. -/
structure QueryContractAddressParams where
  ContractAddress : AccAddress
  deriving DecidableEq, Repr

/-- The type `types.QueryRawStoreParams`. -/
structure QueryRawStoreParams where
  ContractAddress : AccAddress
  Key : ByteSlice
  deriving DecidableEq, Repr

/-- The type `types.QueryContractParams`. -/
structure QueryContractParams where
  ContractAddress : AccAddress
  Msg : ByteSlice
  deriving DecidableEq, Repr

/-- The constants of package `types` the querier compares the tag with and
prints; their values are not part of the sources. -/
structure Types where
  ModuleName : String
  QueryGetByteCode : String
  QueryGetCodeInfo : String
  QueryGetContractInfo : String
  QueryRawStore : String
  QueryContractStore : String
  QueryParameters : String
  deriving DecidableEq, Repr

/-- The decoder `types.ModuleCdc.UnmarshalJSON`, one function for each target
type; a failure carries the text of `err.Error()`. -/
structure ModuleCdc where
  UnmarshalCodeIDParams : ByteSlice → Except String QueryCodeIDParams
  UnmarshalContractAddressParams : ByteSlice → Except String QueryContractAddressParams
  UnmarshalRawStoreParams : ByteSlice → Except String QueryRawStoreParams
  UnmarshalContractParams : ByteSlice → Except String QueryContractParams

/-- The record `keeper.wasmConfig`. -/
structure WasmConfig where
  ContractQueryGasLimit : Nat
  deriving DecidableEq, Repr

/-- The keeper as the querier sees it. `MarshalX` is
`codec.MarshalJSONIndent(keeper.cdc, x)` at each response type.
`queryToContract` is the execution capability and `queryToStore` the storage
lookup: besides its outcome each yields what the meter of the context it was
given has consumed when control comes back (the meter is shared through the
context and mutated in place). -/
structure Keeper (ByteCode CodeInfo ContractInfo Params : Type) where
  wasmConfig : WasmConfig
  GetByteCode : Context → Nat → ByteCode × Option GoError
  GetCodeInfo : Context → Nat → CodeInfo × Option GoError
  GetContractInfo : Context → AccAddress → ContractInfo × Option GoError
  GetParams : Context → Params
  queryToStore : Context → AccAddress → ByteSlice → Nat × ByteSlice
  queryToContract : Context → AccAddress → ByteSlice → Nat × Go Result
  MarshalByteCode : ByteCode → Except String ByteSlice
  MarshalCodeInfo : CodeInfo → Except String ByteSlice
  MarshalContractInfo : ContractInfo → Except String ByteSlice
  MarshalParams : Params → Except String ByteSlice

/-- The Go runtime as the file uses it: the text of `debug.Stack()`. -/
structure Runtime where
  Stack : String
  deriving DecidableEq, Repr

/-! ## The handlers -/

section Handlers

variable {ByteCode CodeInfo ContractInfo Params : Type}

/-- The handler `queryByteCode` (lines 50-68). -/
def queryByteCode (cdc : ModuleCdc) (ctx : Context) (req : RequestQuery)
    (keeper : Keeper ByteCode CodeInfo ContractInfo Params) : Result :=
  match cdc.UnmarshalCodeIDParams req.Data with
  | Except.error e => (none, some (Wrap SdkError.ErrJSONUnmarshal e))
  | Except.ok params =>
    match keeper.GetByteCode ctx params.CodeID with
    | (_, some err) => (none, some err)
    | (byteCode, none) =>
      match keeper.MarshalByteCode byteCode with
      | Except.error e => (none, some (Wrap SdkError.ErrJSONMarshal e))
      | Except.ok bz => (bz, none)

/-- The handler `queryCodeInfo` (lines 70-88). -/
def queryCodeInfo (cdc : ModuleCdc) (ctx : Context) (req : RequestQuery)
    (keeper : Keeper ByteCode CodeInfo ContractInfo Params) : Result :=
  match cdc.UnmarshalCodeIDParams req.Data with
  | Except.error e => (none, some (Wrap SdkError.ErrJSONUnmarshal e))
  | Except.ok params =>
    match keeper.GetCodeInfo ctx params.CodeID with
    | (_, some err) => (none, some err)
    | (codeInfo, none) =>
      match keeper.MarshalCodeInfo codeInfo with
      | Except.error e => (none, some (Wrap SdkError.ErrJSONMarshal e))
      | Except.ok bz => (bz, none)

/-- The handler `queryContractInfo` (lines 90-108). -/
def queryContractInfo (cdc : ModuleCdc) (ctx : Context) (req : RequestQuery)
    (keeper : Keeper ByteCode CodeInfo ContractInfo Params) : Result :=
  match cdc.UnmarshalContractAddressParams req.Data with
  | Except.error e => (none, some (Wrap SdkError.ErrJSONUnmarshal e))
  | Except.ok params =>
    match keeper.GetContractInfo ctx params.ContractAddress with
    | (_, some err) => (none, some err)
    | (contractInfo, none) =>
      match keeper.MarshalContractInfo contractInfo with
      | Except.error e => (none, some (Wrap SdkError.ErrJSONMarshal e))
      | Except.ok bz => (bz, none)

/-- The handler `queryRawStore` (lines 110-119). Next to its two results it
yields what the meter of the context it was given has consumed when it
returns: the handler builds no meter and charges nothing itself, so this is
the reading before the call when the request does not decode, and the reading
the lookup left otherwise. -/
def queryRawStore (cdc : ModuleCdc) (ctx : Context) (req : RequestQuery)
    (keeper : Keeper ByteCode CodeInfo ContractInfo Params) : Nat × Result :=
  match cdc.UnmarshalRawStoreParams req.Data with
  | Except.error e =>
    (ctx.GasMeter.GasConsumed, (none, some (Wrap SdkError.ErrJSONUnmarshal e)))
  | Except.ok params =>
    match keeper.queryToStore ctx params.ContractAddress params.Key with
    | (used, res) => (used, (res, none))

/-- The text `fmt.Sprintf("out of gas in location: %v; gasWanted: %d, gasUsed: %d", ...)`
of line 140. -/
def outOfGasText (descriptor : String) (limit consumed : Nat) : String :=
  "out of gas in location: " ++ descriptor ++ "; gasWanted: " ++ toString limit
    ++ ", gasUsed: " ++ toString consumed

/-- The text `fmt.Sprintf("recovered: %v\nstack:\n%v", r, string(debug.Stack()))`
of line 148. -/
def recoveredText (shown stack : String) : String :=
  "recovered: " ++ shown ++ "\nstack:\n" ++ stack

/-- The deferred function of `queryContractStore` (lines 132-155). `r` is what
`recover()` yields: `none`, the nil value, when the body did not panic and
also when it panicked with the nil value. `named` holds the named results
`bz, err` when the function starts; the value is the named results when it
ends. -/
def recoverFault (rt : Runtime) (ctx : Context) (r : Option PanicValue) (named : Result) :
    Result :=
  match r with
  | none => named
  | some (PanicValue.ErrorOutOfGas descriptor) =>
    (none, some (Wrap SdkError.ErrOutOfGas
      (outOfGasText descriptor ctx.GasMeter.Limit ctx.GasMeter.GasConsumed)))
  | some (PanicValue.other shown) =>
    (none, some (Wrap SdkError.ErrPanic (recoveredText shown rt.Stack)))

/-- The context of `queryContractStore` once `queryToContract` has handed
control back: the same context, its meter (mutated in place during the call)
now showing `used` as consumed. -/
def Context.afterUse (ctx : Context) (used : Nat) : Context :=
  { ctx with gasMeter := { ctx.gasMeter with consumed := used } }

/-- The handler `queryContractStore` (lines 121-160). The deferred function
is installed after the request was decoded, so it covers the call of
`queryToContract` only; when that call panics the named results are still
`nil, nil`, `recover()` stops the panic and yields the value handed to `panic`,
and the handler returns the named results the deferred function leaves. -/
def queryContractStore (cdc : ModuleCdc) (rt : Runtime) (ctx : Context) (req : RequestQuery)
    (keeper : Keeper ByteCode CodeInfo ContractInfo Params) : Go Result :=
  let ctx := ctx.WithGasMeter (NewGasMeter keeper.wasmConfig.ContractQueryGasLimit)
  match cdc.UnmarshalContractParams req.Data with
  | Except.error e => Go.ret (none, some (Wrap SdkError.ErrJSONUnmarshal e))
  | Except.ok params =>
    match keeper.queryToContract ctx params.ContractAddress params.Msg with
    | (used, Go.ret named) => Go.ret (recoverFault rt (ctx.afterUse used) none named)
    | (used, Go.panic r) => Go.ret (recoverFault rt (ctx.afterUse used) r (none, none))

/-- The handler `queryParameters` (lines 162-168). -/
def queryParameters (ctx : Context)
    (keeper : Keeper ByteCode CodeInfo ContractInfo Params) : Result :=
  match keeper.MarshalParams (keeper.GetParams ctx) with
  | Except.error e => (none, some (Wrap SdkError.ErrJSONMarshal e))
  | Except.ok bz => (bz, none)

/-! ## The querier -/

/-- The text `"unknown %s query endpoint: %s"` of line 45. -/
def unknownEndpointText (moduleName tag : String) : String :=
  "unknown " ++ moduleName ++ " query endpoint: " ++ tag

/-- The value the runtime panics with when `path[0]` is read on an empty path. -/
def indexOutOfRange : PanicValue :=
  PanicValue.other "runtime error: index out of range [0] with length 0"

/-- A Go `int` (64 bits, two's complement) after an arithmetic operation: the
mathematical result wrapped into [-2^63, 2^63). -/
def wrapInt (x : Int) : Int :=
  (x + 9223372036854775808) % 18446744073709551616 - 9223372036854775808

/-- Lines 24-29 of the closure: the execution-context bookkeeping. From the
counter `reqIdx` and the incoming context it yields the counter and the
context the `switch` then works with. `Int.tmod` is the remainder of Go. -/
def prepare (reqIdx : Int) (ctx : Context) : Int × Context :=
  let executionStateExists := assertBool (ctx.Value CtxKey.IsContractExecution)
  if !executionStateExists then
    let ctx := ctx.WithValue CtxKey.IsContractExecution (CtxValue.bool false)
    let ctx := ctx.WithValue CtxKey.WasmerIdx (CtxValue.int reqIdx)
    (Int.tmod (wrapInt (reqIdx + 1)) 128, ctx)
  else
    (reqIdx, ctx)

/-- Lines 31-46 of the closure: the `switch` on `path[0]`. Reading `path[0]`
on an empty path is a runtime panic. -/
def dispatch (T : Types) (cdc : ModuleCdc) (rt : Runtime)
    (keeper : Keeper ByteCode CodeInfo ContractInfo Params)
    (ctx : Context) (path : List String) (req : RequestQuery) : Go Result :=
  match path with
  | [] => Go.panic (some indexOutOfRange)
  | tag :: _ =>
    if tag = T.QueryGetByteCode then Go.ret (queryByteCode cdc ctx req keeper)
    else if tag = T.QueryGetCodeInfo then Go.ret (queryCodeInfo cdc ctx req keeper)
    else if tag = T.QueryGetContractInfo then Go.ret (queryContractInfo cdc ctx req keeper)
    else if tag = T.QueryRawStore then Go.ret (queryRawStore cdc ctx req keeper).2
    else if tag = T.QueryContractStore then queryContractStore cdc rt ctx req keeper
    else if tag = T.QueryParameters then Go.ret (queryParameters ctx keeper)
    else Go.ret (none, some (Wrap SdkError.ErrUnknownRequest
      (unknownEndpointText T.ModuleName tag)))

/-- The closure `NewQuerier` returns: the keeper it captured and its variable
`reqIdx`. -/
structure Querier (ByteCode CodeInfo ContractInfo Params : Type) where
  keeper : Keeper ByteCode CodeInfo ContractInfo Params
  reqIdx : Int

/-- The constructor `NewQuerier` (lines 17-48): the closure starts with
`reqIdx = 0`. -/
def NewQuerier (keeper : Keeper ByteCode CodeInfo ContractInfo Params) :
    Querier ByteCode CodeInfo ContractInfo Params :=
  { keeper := keeper, reqIdx := 0 }

/-- One call of the closure (lines 20-47): the closure afterwards (its counter
is written before the `switch` runs, so it is kept when the `switch` panics)
and the outcome of the call. -/
def Querier.call (T : Types) (cdc : ModuleCdc) (rt : Runtime)
    (q : Querier ByteCode CodeInfo ContractInfo Params)
    (ctx : Context) (path : List String) (req : RequestQuery) :
    Querier ByteCode CodeInfo ContractInfo Params × Go Result :=
  let (reqIdx, ctx) := prepare q.reqIdx ctx
  ({ q with reqIdx := reqIdx }, dispatch T cdc rt q.keeper ctx path req)

/-! ## Serving a sequence of queries -/

/-- One query as the closure receives it: the three arguments of a call. -/
structure Query where
  ctx : Context
  path : List String
  req : RequestQuery
  deriving DecidableEq, Repr

/-- A query arrives marked when line 24 finds the execution-context marker on
its context. -/
def Query.marked (x : Query) : Bool :=
  assertBool (x.ctx.Value CtxKey.IsContractExecution)

/-- What serving one query left behind: the context the `switch` (and so the
handler) worked with, and the outcome of the call. -/
structure Served where
  handlerCtx : Context
  outcome : Go Result

/-- The closure called on the queries of a list, one after another; the counter
written by one call is the one the next call reads, also after a call that
panicked (the caller recovered it). -/
def serve (T : Types) (cdc : ModuleCdc) (rt : Runtime) :
    Querier ByteCode CodeInfo ContractInfo Params → List Query →
    Querier ByteCode CodeInfo ContractInfo Params × List Served
  | q, [] => (q, [])
  | q, x :: xs =>
    let step := q.call T cdc rt x.ctx x.path x.req
    let rest := serve T cdc rt step.1 xs
    (rest.1, { handlerCtx := (prepare q.reqIdx x.ctx).2, outcome := step.2 } :: rest.2)

/-- The number of queries of a list that arrive without a marker. -/
def unmarkedCount (xs : List Query) : Nat :=
  (xs.filter (fun x => !x.marked)).length

/-! ## The gas meter and the execution capability, from the spec -/

/-- The type `types.Model` of the test: a key and the value stored under it. -/
structure Model where
  Key : ByteSlice
  Value : ByteSlice
  deriving DecidableEq, Repr

/-- Modelled from the spec: the storage of the contracts (the store is not part
of the sources), as the list of the writes made so far, the latest first. -/
abbrev ContractStorage := List (AccAddress × ByteSlice × ByteSlice)

/-- Modelled from the spec: one value stored under a key of a contract. -/
def ContractStorage.set (st : ContractStorage) (addr : AccAddress) (key value : ByteSlice) :
    ContractStorage :=
  (addr, key, value) :: st

/-- Modelled from the spec: the direct key lookup of section 4.1; the bytes
last stored under the key of the contract, nil when there are none. -/
def ContractStorage.get (st : ContractStorage) (addr : AccAddress) (key : ByteSlice) :
    ByteSlice :=
  match st.find? (fun e => decide (e.1 = addr ∧ e.2.1 = key)) with
  | some e => e.2.2
  | none => none

/-- Modelled from the spec: `keeper.SetContractStore` as the test uses it
(the sources do not contain it); the models are stored in order. -/
def SetContractStore (st : ContractStorage) (addr : AccAddress) (models : List Model) :
    ContractStorage :=
  models.foldl (fun acc m => acc.set addr m.Key m.Value) st

/-- Modelled from the spec: several `keeper.SetContractStore` calls, one after
another; each call names the contract and the models it stores. -/
def setContractStores (st : ContractStorage) (calls : List (AccAddress × List Model)) :
    ContractStorage :=
  calls.foldl (fun acc c => SetContractStore acc c.1 c.2) st

/-- Modelled from the spec: `keeper.queryToStore` (the sources do not contain
it), the ungated lookup of section 4.1 with no gas accounting: the meter of
the context reads after the lookup what it read before. -/
def queryToStore (st : ContractStorage) (ctx : Context) (addr : AccAddress)
    (key : ByteSlice) : Nat × ByteSlice :=
  (ctx.GasMeter.GasConsumed, st.get addr key)

/-- A keeper reading the given contract storage. -/
def Keeper.withStorage (keeper : Keeper ByteCode CodeInfo ContractInfo Params)
    (st : ContractStorage) : Keeper ByteCode CodeInfo ContractInfo Params :=
  { keeper with queryToStore := Wasm.queryToStore st }

end Handlers

/-! ## A small chain to evaluate the definitions on -/

/-- Sample values for the constants of package `types`. -/
def testTypes : Types :=
  { ModuleName := "wasm"
    QueryGetByteCode := "bytecode"
    QueryGetCodeInfo := "codeInfo"
    QueryGetContractInfo := "contractInfo"
    QueryRawStore := "rawStore"
    QueryContractStore := "contractStore"
    QueryParameters := "parameters" }

/-- A toy decoder: the first byte of the payload is the code id or the
address, the bytes after it are the key or the message. -/
def testCdc : ModuleCdc :=
  { UnmarshalCodeIDParams := fun data =>
      match data with
      | some [n] => Except.ok { CodeID := n }
      | _ => Except.error "invalid code id"
    UnmarshalContractAddressParams := fun data =>
      match data with
      | some [a] => Except.ok { ContractAddress := [a] }
      | _ => Except.error "invalid address"
    UnmarshalRawStoreParams := fun data =>
      match data with
      | some (a :: key) => Except.ok { ContractAddress := [a], Key := some key }
      | _ => Except.error "unexpected end of JSON input"
    UnmarshalContractParams := fun data =>
      match data with
      | some (a :: msg) => Except.ok { ContractAddress := [a], Msg := some msg }
      | _ => Except.error "unexpected end of JSON input" }

/-- A toy keeper. Its contract answers message `[1]` with output, message `[2]`
with an error, runs out of gas on message `[3]`, panics with the nil value on
message `[4]` and with a runtime error on anything else. -/
def testKeeper : Keeper Nat Nat Nat Nat :=
  { wasmConfig := { ContractQueryGasLimit := 100 }
    GetByteCode := fun _ id => (id, none)
    GetCodeInfo := fun _ id => (id, none)
    GetContractInfo := fun _ addr => (addr.length, none)
    GetParams := fun _ => 7
    queryToStore := fun ctx _ _ => (ctx.GasMeter.GasConsumed, none)
    queryToContract := fun _ _ msg =>
      if msg = some [1] then (10, Go.ret (some [42], none))
      else if msg = some [2] then (10, Go.ret (none, some (GoError.foreign "query failed")))
      else if msg = some [3] then
        (150, Go.panic (some (PanicValue.ErrorOutOfGas "Contract Query")))
      else if msg = some [4] then (5, Go.panic none)
      else (5, Go.panic (some (PanicValue.other "nil pointer dereference")))
    MarshalByteCode := fun x => Except.ok (some [x])
    MarshalCodeInfo := fun x => Except.ok (some [x])
    MarshalContractInfo := fun x => Except.ok (some [x])
    MarshalParams := fun x => Except.ok (some [x]) }

/-- A context that carries no value; its meter has consumed 40 of 1000. -/
def testCtx : Context :=
  { values := [], gasMeter := { limit := 1000, consumed := 40 } }

/-- A context that already carries the marker and slot 5. -/
def testMarkedCtx : Context :=
  { values := [(CtxKey.WasmerIdx, CtxValue.int 5), (CtxKey.IsContractExecution, CtxValue.bool true)]
    gasMeter := NewGasMeter 0 }

/-- The two models the test stores: `foo` with value `"bar"` (quotes included)
and the key `0x00 0x01` with value `{"count":8}`. -/
def testModels : List Model :=
  [ { Key := some [102, 111, 111], Value := some [34, 98, 97, 114, 34] },
    { Key := some [0, 1],
      Value := some [123, 34, 99, 111, 117, 110, 116, 34, 58, 56, 125] } ]

/-- Three queries for the parameters: a fresh one, a nested one, a fresh one. -/
def testQueries : List Query :=
  [ { ctx := testCtx, path := ["parameters"], req := { Data := none } },
    { ctx := testMarkedCtx, path := ["parameters"], req := { Data := none } },
    { ctx := testCtx, path := [], req := { Data := none } } ]

/-- The runtime of the sample chain. -/
def testRuntime : Runtime := { Stack := "goroutine 1 [running]" }

/-! ## Lemmas on the meter, the storage and the counter -/

section Theorems

variable {ByteCode CodeInfo ContractInfo Params : Type}

/-- Models that do not write a key of a contract leave what is stored under it. -/
theorem get_SetContractStore_of_not_written (addr a : AccAddress) (key : ByteSlice) :
    ∀ (ms : List Model) (st : ContractStorage),
      (a = addr → ∀ m ∈ ms, m.Key ≠ key) →
      (SetContractStore st a ms).get addr key = st.get addr key := by
  intro ms
  induction ms with
  | nil => intro st _; rfl
  | cons m rest ih =>
    intro st h
    have hrest : a = addr → ∀ m' ∈ rest, m'.Key ≠ key :=
      fun ha m' hm' => h ha m' (List.mem_cons_of_mem _ hm')
    have hstep : SetContractStore st a (m :: rest) =
        SetContractStore (st.set a m.Key m.Value) a rest := rfl
    rw [hstep, ih _ hrest]
    have hne : ¬ (a = addr ∧ m.Key = key) :=
      fun hc => h hc.1 m (List.mem_cons_self _ _) hc.2
    simp [ContractStorage.get, ContractStorage.set, List.find?_cons, hne]

/-- After a `SetContractStore` call, the value of the last model with a key is
what is stored under that key. -/
theorem get_SetContractStore_last (addr : AccAddress) (key value : ByteSlice)
    (st : ContractStorage) (before after : List Model)
    (hafter : ∀ m ∈ after, m.Key ≠ key) :
    (SetContractStore st addr (before ++ { Key := key, Value := value } :: after)).get addr key
      = value := by
  have hsplit : SetContractStore st addr (before ++ { Key := key, Value := value } :: after) =
      SetContractStore ((SetContractStore st addr before).set addr key value) addr after := by
    simp [SetContractStore, List.foldl_append]
  rw [hsplit, get_SetContractStore_of_not_written addr addr key after _ (fun _ => hafter)]
  simp [ContractStorage.get, ContractStorage.set, List.find?_cons]

/-- Later calls that do not write a key of a contract leave what is stored
under it. -/
theorem get_setContractStores_of_not_written (addr : AccAddress) (key : ByteSlice) :
    ∀ (calls : List (AccAddress × List Model)) (st : ContractStorage),
      (∀ c ∈ calls, c.1 = addr → ∀ m ∈ c.2, m.Key ≠ key) →
      (setContractStores st calls).get addr key = st.get addr key := by
  intro calls
  induction calls with
  | nil => intro st _; rfl
  | cons c rest ih =>
    intro st h
    have hstep : setContractStores st (c :: rest) =
        setContractStores (SetContractStore st c.1 c.2) rest := rfl
    rw [hstep, ih _ (fun c' hc' => h c' (List.mem_cons_of_mem _ hc'))]
    exact get_SetContractStore_of_not_written addr c.1 key c.2 st
      (h c (List.mem_cons_self _ _))

/-- The bookkeeping on a counter that stands at `n mod 128`: a marked context
passes through, an unmarked one gets the counter as its slot and the counter
moves to `(n + 1) mod 128`. -/
theorem prepare_at (n : Nat) (ctx : Context) :
    prepare ((n % 128 : Nat) : Int) ctx =
      if assertBool (ctx.Value CtxKey.IsContractExecution) then (((n % 128 : Nat) : Int), ctx)
      else ((((n + 1) % 128 : Nat) : Int),
        (ctx.WithValue CtxKey.IsContractExecution (CtxValue.bool false)).WithValue
          CtxKey.WasmerIdx (CtxValue.int ((n % 128 : Nat) : Int))) := by
  have hwrap : wrapInt (((n % 128 : Nat) : Int) + 1) = ((n % 128 : Nat) : Int) + 1 := by
    unfold wrapInt
    omega
  have hmod : Int.tmod (wrapInt (((n % 128 : Nat) : Int) + 1)) 128 =
      (((n + 1) % 128 : Nat) : Int) := by
    rw [hwrap, Int.tmod_eq_emod (by omega) (by omega)]
    omega
  cases hm : assertBool (ctx.Value CtxKey.IsContractExecution) with
  | true => simp only [prepare, hm, Bool.not_true, Bool.false_eq_true, if_false, if_true]
  | false => simp only [prepare, hm, Bool.not_false, Bool.false_eq_true, if_false, if_true, hmod]

/-- Serving a list of queries from a counter that stands at `n mod 128`: where
the counter ends, how long the log is, and which context each query was
handled with. -/
theorem serve_from (T : Types) (cdc : ModuleCdc) (rt : Runtime) :
    ∀ (xs : List Query) (q : Querier ByteCode CodeInfo ContractInfo Params) (n : Nat),
      q.reqIdx = ((n % 128 : Nat) : Int) →
      (serve T cdc rt q xs).1.reqIdx = (((n + unmarkedCount xs) % 128 : Nat) : Int) ∧
      (serve T cdc rt q xs).2.length = xs.length ∧
      ∀ (i : Nat) (x : Query) (s : Served), xs[i]? = some x →
        (serve T cdc rt q xs).2[i]? = some s →
        (x.marked = false → s.handlerCtx.Value CtxKey.WasmerIdx =
          some (CtxValue.int (((n + unmarkedCount (xs.take i)) % 128 : Nat) : Int))) ∧
        (x.marked = true → s.handlerCtx = x.ctx) := by
  intro xs
  induction xs with
  | nil =>
    intro q n hq
    refine ⟨by simpa [serve, unmarkedCount] using hq, rfl, ?_⟩
    intro i x s hx
    simp at hx
  | cons y ys ih =>
    intro q n hq
    have hprep := prepare_at n y.ctx
    rw [← hq] at hprep
    cases hm : assertBool (y.ctx.Value CtxKey.IsContractExecution) with
    | true =>
      have hmarked : y.marked = true := hm
      rw [hm] at hprep
      simp only [if_true] at hprep
      have hstep : (q.call T cdc rt y.ctx y.path y.req).1.reqIdx = ((n % 128 : Nat) : Int) := by
        rw [show (q.call T cdc rt y.ctx y.path y.req).1.reqIdx = (prepare q.reqIdx y.ctx).1
          from rfl, hprep]
        exact hq
      obtain ⟨hfin, hlen, hlog⟩ := ih (q.call T cdc rt y.ctx y.path y.req).1 n hstep
      have hcount : unmarkedCount (y :: ys) = unmarkedCount ys := by
        simp [unmarkedCount, List.filter_cons, hmarked]
      refine ⟨?_, ?_, ?_⟩
      · simp only [serve, hcount]
        exact hfin
      · simp only [serve, List.length_cons, hlen]
      · intro i x s hx hs
        cases i with
        | zero =>
          simp only [serve, List.getElem?_cons_zero, Option.some.injEq] at hx hs
          subst hx
          subst hs
          refine ⟨fun hf => ?_, fun _ => ?_⟩
          · rw [hmarked] at hf
            cases hf
          · simp only [hprep]
        | succ k =>
          simp only [serve, List.getElem?_cons_succ] at hx hs
          have h := hlog k x s hx hs
          have hc : unmarkedCount ((y :: ys).take (k + 1)) = unmarkedCount (ys.take k) := by
            simp [unmarkedCount, List.take_succ_cons, List.filter_cons, hmarked]
          rw [hc]
          exact h
    | false =>
      have hmarked : y.marked = false := hm
      rw [hm] at hprep
      simp only [Bool.false_eq_true, if_false] at hprep
      have hstep : (q.call T cdc rt y.ctx y.path y.req).1.reqIdx =
          (((n + 1) % 128 : Nat) : Int) := by
        rw [show (q.call T cdc rt y.ctx y.path y.req).1.reqIdx = (prepare q.reqIdx y.ctx).1
          from rfl, hprep]
      obtain ⟨hfin, hlen, hlog⟩ := ih (q.call T cdc rt y.ctx y.path y.req).1 (n + 1) hstep
      have hcount : unmarkedCount (y :: ys) = unmarkedCount ys + 1 := by
        simp [unmarkedCount, List.filter_cons, hmarked]
      refine ⟨?_, ?_, ?_⟩
      · simp only [serve, hcount]
        rw [hfin]
        congr 2
        omega
      · simp only [serve, List.length_cons, hlen]
      · intro i x s hx hs
        cases i with
        | zero =>
          simp only [serve, List.getElem?_cons_zero, Option.some.injEq] at hx hs
          subst hx
          subst hs
          refine ⟨fun _ => ?_, fun ht => ?_⟩
          · simp only [hprep, List.take_zero]
            rw [hq]
            rfl
          · rw [hmarked] at ht
            cases ht
        | succ k =>
          simp only [serve, List.getElem?_cons_succ] at hx hs
          have h := hlog k x s hx hs
          have hc : unmarkedCount ((y :: ys).take (k + 1)) = unmarkedCount (ys.take k) + 1 := by
            simp [unmarkedCount, List.take_succ_cons, List.filter_cons, hmarked]
          rw [hc]
          have he : n + (unmarkedCount (ys.take k) + 1) = n + 1 + unmarkedCount (ys.take k) := by
            omega
          rw [he]
          exact h

/-- The handler `queryContractStore` returns on every request: a request that
does not decode is answered before the capability is called, and the deferred
function turns a panic of the capability into a return. -/
theorem queryContractStore_returns (cdc : ModuleCdc) (rt : Runtime) (ctx : Context)
    (req : RequestQuery) (keeper : Keeper ByteCode CodeInfo ContractInfo Params) :
    ∃ res, queryContractStore cdc rt ctx req keeper = Go.ret res := by
  unfold queryContractStore
  cases cdc.UnmarshalContractParams req.Data with
  | error e => exact ⟨_, rfl⟩
  | ok params =>
    simp only
    rcases hcall : keeper.queryToContract
        (ctx.WithGasMeter (NewGasMeter keeper.wasmConfig.ContractQueryGasLimit))
        params.ContractAddress params.Msg with ⟨used, out⟩
    cases out with
    | ret named => exact ⟨_, rfl⟩
    | panic r => exact ⟨_, rfl⟩

/-- On a path that has a tag the closure returns, whatever the tag is. -/
theorem call_returns_of_tag (T : Types) (cdc : ModuleCdc) (rt : Runtime)
    (q : Querier ByteCode CodeInfo ContractInfo Params) (ctx : Context)
    (tag : String) (rest : List String) (req : RequestQuery) :
    ∃ res, (q.call T cdc rt ctx (tag :: rest) req).2 = Go.ret res := by
  simp only [Querier.call, dispatch]
  split_ifs
  · exact ⟨_, rfl⟩
  · exact ⟨_, rfl⟩
  · exact ⟨_, rfl⟩
  · exact ⟨_, rfl⟩
  · exact queryContractStore_returns cdc rt _ req q.keeper
  · exact ⟨_, rfl⟩
  · exact ⟨_, rfl⟩

/-! ## The fault boundary of `queryContractStore` -/

/-- When the request decodes and `keeper.queryToContract` panics with a non-nil
value `r`, `queryContractStore` returns (it does not panic), its bytes are nil
and its error is non-nil: `ErrOutOfGas` wrapped with the out-of-gas text when
`r` is `sdk.ErrorOutOfGas`, `ErrPanic` wrapped with the recovered text for
every other non-nil value. -/
theorem queryContractStore_classifies_nonnil_fault (cdc : ModuleCdc) (rt : Runtime)
    (ctx : Context) (req : RequestQuery) (keeper : Keeper ByteCode CodeInfo ContractInfo Params)
    (params : QueryContractParams) (used : Nat) (r : PanicValue)
    (hdec : cdc.UnmarshalContractParams req.Data = Except.ok params)
    (hfault : keeper.queryToContract
        (ctx.WithGasMeter (NewGasMeter keeper.wasmConfig.ContractQueryGasLimit))
        params.ContractAddress params.Msg = (used, Go.panic (some r))) :
    (∃ e, queryContractStore cdc rt ctx req keeper = Go.ret (none, some e)) ∧
    (∀ descriptor, r = PanicValue.ErrorOutOfGas descriptor →
      queryContractStore cdc rt ctx req keeper =
        Go.ret (none, some (GoError.wrapped SdkError.ErrOutOfGas
          (outOfGasText descriptor keeper.wasmConfig.ContractQueryGasLimit used)))) ∧
    (∀ shown, r = PanicValue.other shown →
      queryContractStore cdc rt ctx req keeper =
        Go.ret (none, some (GoError.wrapped SdkError.ErrPanic
          (recoveredText shown rt.Stack)))) := by
  have hq : queryContractStore cdc rt ctx req keeper =
      Go.ret (recoverFault rt
        ((ctx.WithGasMeter (NewGasMeter keeper.wasmConfig.ContractQueryGasLimit)).afterUse used)
        (some r) (none, none)) := by
    simp only [queryContractStore, hdec, hfault]
  cases r with
  | ErrorOutOfGas d =>
    refine ⟨⟨_, hq⟩, ?_, ?_⟩
    · intro descriptor hd
      cases hd
      exact hq
    · intro shown hs
      cases hs
  | other s =>
    refine ⟨⟨_, hq⟩, ?_, ?_⟩
    · intro descriptor hd
      cases hd
    · intro shown hs
      cases hs
      exact hq

/-- When the request decodes and `keeper.queryToContract` panics with the nil
value, `recover()` yields nil, the test `r != nil` of line 133 fails, and
`queryContractStore` returns the named results as they are: nil bytes and the
nil error. -/
theorem queryContractStore_of_nil_panic (cdc : ModuleCdc) (rt : Runtime)
    (ctx : Context) (req : RequestQuery) (keeper : Keeper ByteCode CodeInfo ContractInfo Params)
    (params : QueryContractParams) (used : Nat)
    (hdec : cdc.UnmarshalContractParams req.Data = Except.ok params)
    (hfault : keeper.queryToContract
        (ctx.WithGasMeter (NewGasMeter keeper.wasmConfig.ContractQueryGasLimit))
        params.ContractAddress params.Msg = (used, Go.panic none)) :
    queryContractStore cdc rt ctx req keeper = Go.ret (none, none) := by
  simp only [queryContractStore, hdec, hfault, recoverFault]

/-- C1. The capability of the sample keeper panics with the nil value on message
`[4]`; the request decodes, and `queryContractStore` answers with nil bytes and
the nil error, a success, where a fault has to come back as nil bytes together
with `ErrOutOfGas` or `ErrPanic`. -/
theorem queryContractStore_nil_panic_returns_no_error :
    testCdc.UnmarshalContractParams (some [9, 4]) =
      Except.ok { ContractAddress := [9], Msg := some [4] } ∧
    testKeeper.queryToContract
        (testCtx.WithGasMeter (NewGasMeter testKeeper.wasmConfig.ContractQueryGasLimit))
        [9] (some [4]) = (5, Go.panic none) ∧
    queryContractStore testCdc testRuntime testCtx { Data := some [9, 4] } testKeeper =
      Go.ret (none, none) :=
  ⟨rfl, rfl, queryContractStore_of_nil_panic testCdc testRuntime testCtx { Data := some [9, 4] }
    testKeeper { ContractAddress := [9], Msg := some [4] } 5 rfl rfl⟩

/-- C3. When the request decodes and `keeper.queryToContract` returns the pair
`(bz, err)` without a fault, `queryContractStore` returns exactly that pair:
output bytes come back unmodified, and an error of the contract comes back as
an error, not as a panic. -/
theorem queryContractStore_returns_capability_result (cdc : ModuleCdc) (rt : Runtime)
    (ctx : Context) (req : RequestQuery) (keeper : Keeper ByteCode CodeInfo ContractInfo Params)
    (params : QueryContractParams) (used : Nat) (bz : ByteSlice) (err : Option GoError)
    (hdec : cdc.UnmarshalContractParams req.Data = Except.ok params)
    (hret : keeper.queryToContract
        (ctx.WithGasMeter (NewGasMeter keeper.wasmConfig.ContractQueryGasLimit))
        params.ContractAddress params.Msg = (used, Go.ret (bz, err))) :
    queryContractStore cdc rt ctx req keeper = Go.ret (bz, err) := by
  simp only [queryContractStore, hdec, hret, recoverFault]

/-- The sample contract answers message `[2]` with an error: C3 at that query. -/
theorem queryContractStore_returns_capability_result_witness :
    queryContractStore testCdc testRuntime testCtx { Data := some [9, 2] } testKeeper =
      Go.ret (none, some (GoError.foreign "query failed")) :=
  queryContractStore_returns_capability_result testCdc testRuntime testCtx
    { Data := some [9, 2] } testKeeper { ContractAddress := [9], Msg := some [2] } 10
    none (some (GoError.foreign "query failed")) rfl rfl

/-- C7. With the storage of the spec: when a raw-store request decodes to a
contract and a key, and the last write to that key of that contract stored
`value`, `queryRawStore` returns `value` and the nil error, and the meter of
the context has consumed after the call what it had consumed before. And
whatever the keeper is, the lookup is made with the context the handler was
given (its meter is not replaced), the bytes of the lookup are returned as they
are, and the meter is left at the reading the lookup left, the handler
charging nothing itself. -/
theorem queryRawStore_round_trip (cdc : ModuleCdc) (ctx : Context) (req : RequestQuery)
    (keeper : Keeper ByteCode CodeInfo ContractInfo Params) (params : QueryRawStoreParams)
    (st : ContractStorage) (before after : List Model) (value : ByteSlice)
    (later : List (AccAddress × List Model))
    (hdec : cdc.UnmarshalRawStoreParams req.Data = Except.ok params)
    (hafter : ∀ m ∈ after, m.Key ≠ params.Key)
    (hlater : ∀ c ∈ later, c.1 = params.ContractAddress → ∀ m ∈ c.2, m.Key ≠ params.Key) :
    queryRawStore cdc ctx req
        (keeper.withStorage (setContractStores
          (SetContractStore st params.ContractAddress
            (before ++ { Key := params.Key, Value := value } :: after)) later)) =
      (ctx.GasMeter.GasConsumed, (value, none)) ∧
    (∀ K : Keeper ByteCode CodeInfo ContractInfo Params,
      queryRawStore cdc ctx req K =
        ((K.queryToStore ctx params.ContractAddress params.Key).1,
          ((K.queryToStore ctx params.ContractAddress params.Key).2, none))) := by
  constructor
  · simp only [queryRawStore, hdec, Keeper.withStorage, queryToStore]
    rw [get_setContractStores_of_not_written _ _ later _ hlater,
      get_SetContractStore_last _ _ _ st before after hafter]
  · intro K
    simp only [queryRawStore, hdec]

/-- The scenario of the test: after the two models are stored on contract `[9]`,
the raw-store query for `foo` returns `"bar"`, and the meter of the context,
which had consumed 40, still reads 40. -/
theorem queryRawStore_round_trip_witness :
    queryRawStore testCdc testCtx { Data := some [9, 102, 111, 111] }
        (testKeeper.withStorage (SetContractStore [] [9] testModels)) =
      (40, (some [34, 98, 97, 114, 34], none)) :=
  (queryRawStore_round_trip testCdc testCtx { Data := some [9, 102, 111, 111] } testKeeper
    { ContractAddress := [9], Key := some [102, 111, 111] } [] []
    [{ Key := some [0, 1],
       Value := some [123, 34, 99, 111, 117, 110, 116, 34, 58, 56, 125] }]
    (some [34, 98, 97, 114, 34]) [] rfl (by decide) (by decide)).1

/-- C8. The handler `queryParameters` returns the encoding of `keeper.GetParams(ctx)`
with the nil error when the encoder succeeds, and nil bytes with `ErrJSONMarshal`
when it fails; it returns no other error; a decoder that inverts the encoder
reads `keeper.GetParams(ctx)` back from a successful response; and the closure
answers the parameters tag with what the handler says, whatever the payload of
the request is. -/
theorem queryParameters_returns_current_params (T : Types) (cdc : ModuleCdc) (rt : Runtime)
    (q : Querier ByteCode CodeInfo ContractInfo Params) (ctx : Context)
    (rest : List String) (req req' : RequestQuery)
    (h1 : T.QueryParameters ≠ T.QueryGetByteCode) (h2 : T.QueryParameters ≠ T.QueryGetCodeInfo)
    (h3 : T.QueryParameters ≠ T.QueryGetContractInfo) (h4 : T.QueryParameters ≠ T.QueryRawStore)
    (h5 : T.QueryParameters ≠ T.QueryContractStore) :
    (∀ bz, q.keeper.MarshalParams (q.keeper.GetParams ctx) = Except.ok bz →
      queryParameters ctx q.keeper = (bz, none)) ∧
    (∀ e, q.keeper.MarshalParams (q.keeper.GetParams ctx) = Except.error e →
      queryParameters ctx q.keeper =
        (none, some (GoError.wrapped SdkError.ErrJSONMarshal e))) ∧
    (∀ err, (queryParameters ctx q.keeper).2 = some err →
      (queryParameters ctx q.keeper).1 = none ∧
        ∃ e, err = GoError.wrapped SdkError.ErrJSONMarshal e) ∧
    (∀ Unmarshal : ByteSlice → Option Params,
      (∀ p bz, q.keeper.MarshalParams p = Except.ok bz → Unmarshal bz = some p) →
      (queryParameters ctx q.keeper).2 = none →
      Unmarshal (queryParameters ctx q.keeper).1 = some (q.keeper.GetParams ctx)) ∧
    (q.call T cdc rt ctx (T.QueryParameters :: rest) req).2 =
      Go.ret (queryParameters (prepare q.reqIdx ctx).2 q.keeper) ∧
    q.call T cdc rt ctx (T.QueryParameters :: rest) req =
      q.call T cdc rt ctx (T.QueryParameters :: rest) req' := by
  have hroute : ∀ r : RequestQuery, q.call T cdc rt ctx (T.QueryParameters :: rest) r =
      ({ q with reqIdx := (prepare q.reqIdx ctx).1 },
        Go.ret (queryParameters (prepare q.reqIdx ctx).2 q.keeper)) := by
    intro r
    simp only [Querier.call, dispatch, if_neg h1, if_neg h2, if_neg h3, if_neg h4, if_neg h5,
      if_true]
  refine ⟨?_, ?_, ?_, ?_, ?_, ?_⟩
  · intro bz hbz
    simp only [queryParameters, hbz]
  · intro e he
    simp only [queryParameters, he, Wrap]
  · intro err herr
    cases hm : q.keeper.MarshalParams (q.keeper.GetParams ctx) with
    | error e =>
      simp only [queryParameters, hm, Wrap, Option.some.injEq] at herr ⊢
      exact ⟨trivial, e, herr.symm⟩
    | ok bz =>
      simp [queryParameters, hm] at herr
  · intro Unmarshal hinv hok
    cases hm : q.keeper.MarshalParams (q.keeper.GetParams ctx) with
    | error e =>
      simp [queryParameters, hm] at hok
    | ok bz =>
      simp only [queryParameters, hm]
      exact hinv _ _ hm
  · rw [hroute req]
  · rw [hroute req, hroute req']

/-- The sample chain answers the parameters tag with the encoding of its
parameter record 7, for two different payloads alike: C8 there. -/
theorem queryParameters_returns_current_params_witness :
    ((NewQuerier testKeeper).call testTypes testCdc testRuntime testCtx ["parameters"]
        { Data := none }).2 = Go.ret (some [7], none) ∧
    (NewQuerier testKeeper).call testTypes testCdc testRuntime testCtx ["parameters"]
        { Data := none } =
      (NewQuerier testKeeper).call testTypes testCdc testRuntime testCtx ["parameters"]
        { Data := some [1, 2, 3] } :=
  have h := queryParameters_returns_current_params testTypes testCdc testRuntime
    (NewQuerier testKeeper) testCtx [] { Data := none } { Data := some [1, 2, 3] }
    (by decide) (by decide) (by decide) (by decide) (by decide)
  ⟨h.2.2.2.2.1, h.2.2.2.2.2⟩

/-! ## The router -/

/-- C4. A query whose tag `path[0]` is none of the six known query kinds gets nil
bytes and `ErrUnknownRequest`, wrapped with a text that ends in the tag; this
holds whatever the keeper, the context and the payload are, so no handler
decides the answer. -/
theorem unknown_tag_is_unknown_request (T : Types) (cdc : ModuleCdc) (rt : Runtime)
    (q : Querier ByteCode CodeInfo ContractInfo Params) (ctx : Context)
    (tag : String) (rest : List String) (req : RequestQuery)
    (h1 : tag ≠ T.QueryGetByteCode) (h2 : tag ≠ T.QueryGetCodeInfo)
    (h3 : tag ≠ T.QueryGetContractInfo) (h4 : tag ≠ T.QueryRawStore)
    (h5 : tag ≠ T.QueryContractStore) (h6 : tag ≠ T.QueryParameters) :
    (q.call T cdc rt ctx (tag :: rest) req).2 =
      Go.ret (none, some (GoError.wrapped SdkError.ErrUnknownRequest
        ("unknown " ++ T.ModuleName ++ " query endpoint: " ++ tag))) := by
  simp only [Querier.call, dispatch, if_neg h1, if_neg h2, if_neg h3, if_neg h4, if_neg h5,
    if_neg h6, Wrap, unknownEndpointText]

/-- The tag `balance` is unknown to the sample chain: C4 at that query. -/
theorem unknown_tag_is_unknown_request_witness :
    ((NewQuerier testKeeper).call testTypes testCdc testRuntime testCtx ["balance", "x"]
        { Data := none }).2 =
      Go.ret (none, some (GoError.wrapped SdkError.ErrUnknownRequest
        "unknown wasm query endpoint: balance")) :=
  unknown_tag_is_unknown_request testTypes testCdc testRuntime (NewQuerier testKeeper) testCtx
    "balance" ["x"] { Data := none } (by decide) (by decide) (by decide) (by decide)
    (by decide) (by decide)

/-- C9. On the empty path the closure does not return a result: reading `path[0]`
panics with the index-out-of-range runtime error, whatever the keeper, the
context and the payload are. -/
theorem empty_path_panics (T : Types) (cdc : ModuleCdc) (rt : Runtime)
    (q : Querier ByteCode CodeInfo ContractInfo Params) (ctx : Context) (req : RequestQuery) :
    (q.call T cdc rt ctx [] req).2 =
      Go.panic
        (some (PanicValue.other "runtime error: index out of range [0] with length 0")) := by
  rfl

/-! ## The execution-context bookkeeping -/

/-- C5. A query whose context already carries the marker (a `bool` under
`types.IsContractExecution`) is handed to the `switch` with the very context
it came with, so with the same marker and the same `types.WasmerIdx`, and the
counter of the closure is left as it was; and a context that went through the
bookkeeping once goes through it unchanged ever after. -/
theorem marked_query_reuses_context (T : Types) (cdc : ModuleCdc) (rt : Runtime)
    (q : Querier ByteCode CodeInfo ContractInfo Params) (ctx : Context)
    (path : List String) (req : RequestQuery)
    (hmark : assertBool (ctx.Value CtxKey.IsContractExecution) = true) :
    q.call T cdc rt ctx path req = (q, dispatch T cdc rt q.keeper ctx path req) ∧
    prepare q.reqIdx ctx = (q.reqIdx, ctx) ∧
    (prepare q.reqIdx ctx).2.Value CtxKey.IsContractExecution =
      ctx.Value CtxKey.IsContractExecution ∧
    (prepare q.reqIdx ctx).2.Value CtxKey.WasmerIdx = ctx.Value CtxKey.WasmerIdx ∧
    (∀ (i j : Int) (c : Context), prepare j (prepare i c).2 = (j, (prepare i c).2)) := by
  have hp : ∀ (i : Int) (c : Context),
      assertBool (c.Value CtxKey.IsContractExecution) = true → prepare i c = (i, c) := by
    intro i c hc
    simp [prepare, hc]
  have hprep := hp q.reqIdx ctx hmark
  refine ⟨?_, hprep, ?_, ?_, ?_⟩
  · simp only [Querier.call, hprep]
  · rw [hprep]
  · rw [hprep]
  · intro i j c
    apply hp
    by_cases hc : assertBool (c.Value CtxKey.IsContractExecution) = true
    · rw [hp i c hc]
      exact hc
    · simp only [Bool.not_eq_true] at hc
      have hpc : prepare i c =
          (Int.tmod (wrapInt (i + 1)) 128,
            (c.WithValue CtxKey.IsContractExecution (CtxValue.bool false)).WithValue
              CtxKey.WasmerIdx (CtxValue.int i)) := by
        simp [prepare, hc]
      rw [hpc]
      rfl

/-- A nested query on the sample chain keeps slot 5 and the counter 3: C5 there. -/
theorem marked_query_reuses_context_witness :
    ((({ keeper := testKeeper, reqIdx := 3 } : Querier Nat Nat Nat Nat).call testTypes testCdc
        testRuntime testMarkedCtx ["parameters"] { Data := none }).1.reqIdx = 3) ∧
    (prepare 3 testMarkedCtx).2.Value CtxKey.WasmerIdx = some (CtxValue.int 5) :=
  have h := marked_query_reuses_context testTypes testCdc testRuntime
    ({ keeper := testKeeper, reqIdx := 3 } : Querier Nat Nat Nat Nat) testMarkedCtx
    ["parameters"] { Data := none } rfl
  ⟨by rw [h.1], by rw [h.2.2.2.1]; rfl⟩

/-- C6. A query whose context carries no marker, served by a closure whose
counter is in the range it always is in, is handed to the `switch` with a
context on which the marker is present (a `bool`, with value `false`) and
`types.WasmerIdx` is the counter; the counter of the closure becomes
(counter + 1) mod 128, and nothing else of the context changes. -/
theorem fresh_query_is_marked_and_slotted (T : Types) (cdc : ModuleCdc) (rt : Runtime)
    (q : Querier ByteCode CodeInfo ContractInfo Params) (ctx : Context)
    (path : List String) (req : RequestQuery)
    (hfresh : assertBool (ctx.Value CtxKey.IsContractExecution) = false)
    (hlo : 0 ≤ q.reqIdx) (hhi : q.reqIdx < 128) :
    q.call T cdc rt ctx path req =
      ({ q with reqIdx := (q.reqIdx + 1) % 128 },
        dispatch T cdc rt q.keeper (prepare q.reqIdx ctx).2 path req) ∧
    assertBool ((prepare q.reqIdx ctx).2.Value CtxKey.IsContractExecution) = true ∧
    (prepare q.reqIdx ctx).2.Value CtxKey.IsContractExecution = some (CtxValue.bool false) ∧
    (prepare q.reqIdx ctx).2.Value CtxKey.WasmerIdx = some (CtxValue.int q.reqIdx) ∧
    (prepare q.reqIdx ctx).2.gasMeter = ctx.gasMeter ∧
    (prepare q.reqIdx ctx).1 = (q.reqIdx + 1) % 128 := by
  have hwrap : wrapInt (q.reqIdx + 1) = q.reqIdx + 1 := by
    unfold wrapInt
    omega
  have hmod : Int.tmod (wrapInt (q.reqIdx + 1)) 128 = (q.reqIdx + 1) % 128 := by
    rw [hwrap]
    exact Int.tmod_eq_emod (by omega) (by omega)
  have hprep : prepare q.reqIdx ctx =
      ((q.reqIdx + 1) % 128,
        (ctx.WithValue CtxKey.IsContractExecution (CtxValue.bool false)).WithValue
          CtxKey.WasmerIdx (CtxValue.int q.reqIdx)) := by
    simp [prepare, hfresh, hmod]
  refine ⟨?_, ?_, ?_, ?_, ?_, ?_⟩
  · simp only [Querier.call, hprep]
  · rw [hprep]; rfl
  · rw [hprep]; rfl
  · rw [hprep]; rfl
  · rw [hprep]; rfl
  · rw [hprep]

/-- The closure with counter 127 serves a fresh query on slot 127 and wraps
its counter to 0: C6 there. -/
theorem fresh_query_is_marked_and_slotted_witness :
    (({ keeper := testKeeper, reqIdx := 127 } : Querier Nat Nat Nat Nat).call testTypes testCdc
        testRuntime testCtx ["parameters"] { Data := none }).1.reqIdx = 0 ∧
    (prepare 127 testCtx).2.Value CtxKey.WasmerIdx = some (CtxValue.int 127) :=
  have h := fresh_query_is_marked_and_slotted testTypes testCdc testRuntime
    ({ keeper := testKeeper, reqIdx := 127 } : Querier Nat Nat Nat Nat) testCtx
    ["parameters"] { Data := none } rfl (by decide) (by decide)
  ⟨by rw [h.1]; rfl, h.2.2.2.1⟩

/-- C10. One closure made by `NewQuerier` serving any finite list of queries one
after another: its counter ends in [0, 128) and equals the number of queries
that arrived without a marker, mod 128 (so it moved once for each of them,
whatever their path and payload, and never for a marked one); every query is
handled; the k-th unmarked query (k counted from 0) is handled on slot
k mod 128, which is in [0, 128); and a marked query is handled with the
context it came with. -/
theorem slot_sequence_invariant (T : Types) (cdc : ModuleCdc) (rt : Runtime)
    (keeper : Keeper ByteCode CodeInfo ContractInfo Params) (xs : List Query) :
    0 ≤ (serve T cdc rt (NewQuerier keeper) xs).1.reqIdx ∧
    (serve T cdc rt (NewQuerier keeper) xs).1.reqIdx < 128 ∧
    (serve T cdc rt (NewQuerier keeper) xs).1.reqIdx = ((unmarkedCount xs % 128 : Nat) : Int) ∧
    (serve T cdc rt (NewQuerier keeper) xs).2.length = xs.length ∧
    (∀ (i : Nat) (x : Query) (s : Served), xs[i]? = some x →
      (serve T cdc rt (NewQuerier keeper) xs).2[i]? = some s →
      (x.marked = false → ∃ slot : Int,
        s.handlerCtx.Value CtxKey.WasmerIdx = some (CtxValue.int slot) ∧
        0 ≤ slot ∧ slot < 128 ∧
        slot = ((unmarkedCount (xs.take i) % 128 : Nat) : Int)) ∧
      (x.marked = true → s.handlerCtx = x.ctx)) := by
  obtain ⟨hfin, hlen, hlog⟩ := serve_from T cdc rt xs (NewQuerier keeper) 0 rfl
  simp only [Nat.zero_add] at hfin hlog
  refine ⟨?_, ?_, hfin, hlen, ?_⟩
  · rw [hfin]
    omega
  · rw [hfin]
    omega
  · intro i x s hx hs
    obtain ⟨hfresh, hmarked⟩ := hlog i x s hx hs
    refine ⟨fun hf => ⟨_, hfresh hf, ?_, ?_, rfl⟩, hmarked⟩
    · omega
    · omega

/-- The sample chain serves a fresh query, a nested one and a fresh one with an
empty path: the counter ends at 2 and the three are handled on the slots 0, 5
(the slot the nested query came with) and 1. -/
theorem slot_sequence_invariant_witness :
    (serve testTypes testCdc testRuntime (NewQuerier testKeeper) testQueries).1.reqIdx = 2 ∧
    (serve testTypes testCdc testRuntime (NewQuerier testKeeper) testQueries).2.map
        (fun s => s.handlerCtx.Value CtxKey.WasmerIdx) =
      [some (CtxValue.int 0), some (CtxValue.int 5), some (CtxValue.int 1)] :=
  ⟨(slot_sequence_invariant testTypes testCdc testRuntime testKeeper testQueries).2.2.1, rfl⟩

end Theorems

end Wasm
